import Mathlib

/-!
Shallow embedding of the `byblog` service-object framework
(`utils/django_service_objects/service_objects/services.py`,
`utils/django_service_objects/service_objects/errors.py`) and of the one
concrete service built on it (`api/services/user/retrieve.py`).

Conventions used throughout:
* Python `None`-able attributes become `Option` values.
* Python exceptions become the `PyExc` sum type; a function that can raise
  returns `Except PyExc α`.
* Python dictionaries keyed by strings become association lists
  (`List (String × _)`), first match wins, insertion order preserved —
  matching CPython dict semantics for the operations the source uses.
* Truthiness (`if x:`, `a or b`) is modelled explicitly: `None`, `""`, `0`,
  empty lists and empty dicts are falsy.
-/

set_option autoImplicit false

namespace ByBlog

/-- The closed error taxonomy of `errors.py`: the base `Error` class and its
subclasses.  `serviceObjectLogicError` subclasses `ValidationError` and
overrides nothing, so it shares the `ValidationError` defaults. -/
inductive ErrorKind : Type where
  | error
  | unauthorized
  | authenticationFailed
  | accessDenied
  | notFound
  | validationError
  | forbiddenError
  | serviceObjectLogicError
  deriving DecidableEq, Repr

/-- Models `_default_response_status` of each class in `errors.py`. -/
def defaultResponseStatus : ErrorKind → Nat
  | .error => 500
  | .unauthorized => 401
  | .authenticationFailed => 401
  | .accessDenied => 423
  | .notFound => 404
  | .validationError => 400
  | .forbiddenError => 403
  | .serviceObjectLogicError => 400

/-- Models `_default_message` of each class in `errors.py`. -/
def defaultMessage : ErrorKind → String
  | .error => "We are sorry but something went wrong"
  | .unauthorized => "Authorization is required"
  | .authenticationFailed => "Authorization is required"
  | .accessDenied => "Access denied"
  | .notFound => "Resource not found"
  | .validationError => "Invalid request data"
  | .forbiddenError => "Access denied"
  | .serviceObjectLogicError => "Invalid request data"

/-- Models `_default_translation_key` of each class in `errors.py`. -/
def defaultTranslationKey : ErrorKind → String
  | .error => "internal_server_error"
  | .unauthorized => "unauthorized"
  | .authenticationFailed => "authentication_failed"
  | .accessDenied => "locked"
  | .notFound => "not_found"
  | .validationError => "invalid_request_data"
  | .forbiddenError => "forbidden"
  | .serviceObjectLogicError => "invalid_request_data"

/-- Python `a or b` for an optional string `a`: `None` and `""` are falsy. -/
def pyOrStr (a : Option String) (b : String) : String :=
  match a with
  | none => b
  | some s => if s = "" then b else s

/-- Python `a or b` for an optional integer `a`: `None` and `0` are falsy. -/
def pyOrNat (a : Option Nat) (b : Nat) : Nat :=
  match a with
  | none => b
  | some n => if n = 0 then b else n

mutual

/-- A constructed instance of `Error` (or a subclass) from `errors.py`,
after `__init__` has run.  Fields, in order: the concrete class
(`kind`), `translation_key`, `message`, `debug_message`, `details`,
`additional_info`, `response_status`, `errors_dict`, and the single
argument handed to `super().__init__` (so `str(e)` can be recovered).
`translation_key`, `message` and `response_status` hold the values
*after* the `x or self._default_x` resolution performed by `__init__`;
`details` and `additional_info` are opaque payloads modelled as strings. -/
inductive ErrorVal : Type where
  | mk : ErrorKind → String → String → Option String → Option String →
      Option String → Nat → Option (List (String × ScopeVal)) → String → ErrorVal

/-- The value stored under one key of a `ServiceWithResult._errors` dict:
either a plain Python list of entries, or (after an indexed `add_error`)
a dict from `field_index` to lists of entries. -/
inductive ScopeVal : Type where
  | plain : List ErrEntry → ScopeVal
  | indexed : List (Nat × List ErrEntry) → ScopeVal

/-- One entry appended by `add_error`: `prepared_error` is either the error
object itself or, when the error carries a truthy `errors_dict`, that dict. -/
inductive ErrEntry : Type where
  | errObj : ErrorVal → ErrEntry
  | errsDict : List (String × ScopeVal) → ErrEntry

end

/-- The `_errors` dict of a `ServiceWithResult`. -/
abbrev ErrMap : Type := List (String × ScopeVal)

def ErrorVal.kind : ErrorVal → ErrorKind
  | .mk k _ _ _ _ _ _ _ _ => k

def ErrorVal.translation_key : ErrorVal → String
  | .mk _ tk _ _ _ _ _ _ _ => tk

def ErrorVal.message : ErrorVal → String
  | .mk _ _ m _ _ _ _ _ _ => m

def ErrorVal.debug_message : ErrorVal → Option String
  | .mk _ _ _ dm _ _ _ _ _ => dm

def ErrorVal.details : ErrorVal → Option String
  | .mk _ _ _ _ d _ _ _ _ => d

def ErrorVal.additional_info : ErrorVal → Option String
  | .mk _ _ _ _ _ ai _ _ _ => ai

def ErrorVal.response_status : ErrorVal → Nat
  | .mk _ _ _ _ _ _ rs _ _ => rs

def ErrorVal.errors_dict : ErrorVal → Option ErrMap
  | .mk _ _ _ _ _ _ _ ed _ => ed

/-- The argument `Error.__init__` passed to `super().__init__`. -/
def ErrorVal.excArgs : ErrorVal → String
  | .mk _ _ _ _ _ _ _ _ a => a

/-- Models `Error.__init__` from `errors.py`: every falsy `translation_key`,
`message` and `response_status` argument is replaced by the class default
(`x or self._default_x`), the resolved message is handed to the base
`Exception` constructor, and the remaining attributes are stored as given. -/
def errorInit (kind : ErrorKind) (translation_key message debug_message : Option String)
    (details additional_info : Option String) (response_status : Option Nat)
    (errors_dict : Option ErrMap) : ErrorVal :=
  let tk := pyOrStr translation_key (defaultTranslationKey kind)
  let msg := pyOrStr message (defaultMessage kind)
  let rs := pyOrNat response_status (defaultResponseStatus kind)
  .mk kind tk msg debug_message details additional_info rs errors_dict msg

/-- Models `str(e)` for a single-argument `Exception`: the stored argument. -/
def strError (e : ErrorVal) : String :=
  e.excArgs

/-- Python truthiness of a `ScopeVal` (a list or a dict): empty is falsy. -/
def scopeTruthy : ScopeVal → Bool
  | .plain es => !es.isEmpty
  | .indexed m => !m.isEmpty

/-- Python `d.get(k)` on a string-keyed dict modelled as an association list. -/
def dictGet (m : List (String × ScopeVal)) (k : String) : Option ScopeVal :=
  (m.find? (fun p => p.1 = k)).map (fun p => p.2)

/-- Python `d.get(k)` followed by a truthiness test, as in
`if self._errors.get(field):` — absent keys and empty values both fail. -/
def truthyGet (m : List (String × ScopeVal)) (k : String) : Option ScopeVal :=
  match dictGet m k with
  | some v => if scopeTruthy v then some v else none
  | none => none

/-- Python `d[k] = v` on a string-keyed dict modelled as an association list:
replaces the first binding in place, else appends (CPython insertion order). -/
def dictSet (m : List (String × ScopeVal)) (k : String) (v : ScopeVal) :
    List (String × ScopeVal) :=
  match m with
  | [] => [(k, v)]
  | (k', v') :: rest =>
      if k' = k then (k, v) :: rest else (k', v') :: dictSet rest k v

/-- Python `d.get(i)` on the `field_index`-keyed inner dict, with truthiness test. -/
def truthyGetNat (m : List (Nat × List ErrEntry)) (i : Nat) : Option (List ErrEntry) :=
  match (m.find? (fun p => p.1 = i)).map (fun p => p.2) with
  | some es => if es.isEmpty then none else some es
  | none => none

/-- Python `d[i] = v` on the `field_index`-keyed inner dict. -/
def dictSetNat (m : List (Nat × List ErrEntry)) (i : Nat) (v : List ErrEntry) :
    List (Nat × List ErrEntry) :=
  match m with
  | [] => [(i, v)]
  | (i', v') :: rest =>
      if i' = i then (i, v) :: rest else (i', v') :: dictSetNat rest i v

/-- Models `getattr(error, 'errors', None) or getattr(error, 'errors_dict', None) or error`
from `ServiceWithResult.add_error`.  An `Error` instance has no `errors`
attribute, so the first `getattr` yields `None`; an `errors_dict` that is
`None` or an empty dict is falsy, leaving the error object itself. -/
def preparedError (e : ErrorVal) : ErrEntry :=
  match e.errors_dict with
  | some d => if d.isEmpty then .errObj e else .errsDict d
  | none => .errObj e

/-- The exceptions the embedded code can raise. -/
inductive PyExc : Type where
  /-- Raised `InvalidInputsError(errors, non_field_errors)` from `errors.py`. -/
  | invalidInputs (errors : List (String × List String)) (non_field_errors : List String)
  /-- A raised instance of the `Error` taxonomy (e.g. `ServiceObjectLogicError`). -/
  | raisedError (e : ErrorVal)
  /-- Raised `User.DoesNotExist`: what Django's `QuerySet.get` on no match. -/
  | doesNotExist
  /-- Raised `AttributeError`: the named attribute does not exist on the receiver. -/
  | attributeError (attr : String)
  /-- Raised `KeyError` from a plain dict subscript. -/
  | keyError (key : String)

/-- Models `ServiceWithResult.add_error` from `services.py`, acting on the `_errors`
dict.  With `field_index = None`: append to an existing list, or create a
one-element list.  With an explicit `field_index`: if the scope holds a dict,
append/create at that index; creating the scope fresh yields
`{field_index: [prepared]}`.  When the stored value has the *other* shape the
source calls a method the value does not have (`list.get` / `dict.append`)
and Python raises `AttributeError`. -/
def addErrorMap (m : ErrMap) (field : String) (error : ErrorVal)
    (field_index : Option Nat) : Except PyExc ErrMap :=
  match field_index with
  | none =>
    let prepared := preparedError error
    match truthyGet m field with
    | some (.plain es) => .ok (dictSet m field (.plain (es ++ [prepared])))
    | some (.indexed _) => .error (.attributeError "append")
    | none => .ok (dictSet m field (.plain [prepared]))
  | some i =>
    let prepared := preparedError error
    match truthyGet m field with
    | some (.plain _) => .error (.attributeError "get")
    | some (.indexed sub) =>
      match truthyGetNat sub i with
      | some es => .ok (dictSet m field (.indexed (dictSetNat sub i (es ++ [prepared]))))
      | none => .ok (dictSet m field (.indexed (dictSetNat sub i [prepared])))
    | none => .ok (dictSet m field (.indexed [(i, [prepared])]))

/-- Raw input values for `validate(rawInputs)`: the values as they arrive in the inputs dict. -/
inductive RawVal : Type where
  | int (i : Int)
  | str (s : String)
  deriving DecidableEq, Repr

/-- A cleaned (coerced) field value, as stored in `cleaned_data`. -/
inductive CleanVal : Type where
  | int (i : Int)
  | str (s : String)
  deriving DecidableEq, Repr

/-- The primitive field types the repository's services declare
(`forms.IntegerField`, `forms.CharField`). -/
inductive FType : Type where
  | integer
  | string
  deriving DecidableEq, Repr

/-- One declared form field: name, type and required flag. -/
structure FieldDecl : Type where
  name : String
  ftype : FType
  required : Bool
  deriving DecidableEq, Repr

/-- First-match lookup in the raw inputs dict. -/
def lookupRaw (inputs : List (String × RawVal)) (k : String) : Option RawVal :=
  (inputs.find? (fun p => p.1 = k)).map (fun p => p.2)

/-- Modelled from the spec: per-field type coercion of the FieldSchema /
Validator component (Django's form fields, which live in the external
`django.forms` library, not under `src/`). -/
def coerceValue : FType → RawVal → Option CleanVal
  | .integer, .int i => some (.int i)
  | .integer, .str s => (s.toInt?).map .int
  | .string, .int i => some (.str (toString i))
  | .string, .str s => some (.str s)

/-- Modelled from the spec: the type-specific coercion failure message of the
FieldSchema / Validator component (not under `src/`). -/
def typeErrorMessage : FType → String
  | .integer => "Enter a whole number."
  | .string => "Enter a valid value."

/-- Modelled from the spec: `validate(rawInputs) → (cleanedInputs, fieldErrors)`
of the FieldSchema / Validator component (Django's `Form.full_clean`, which
lives outside `src/`; `services.py` only invokes it through `is_valid`).
Each declared field is checked independently in declaration order; a missing
required field yields the error "This field is required." scoped to that
field; a coercion failure yields a type-specific message; no short-circuit. -/
def validateFields (schema : List FieldDecl) (inputs : List (String × RawVal)) :
    List (String × CleanVal) × List (String × List String) :=
  match schema with
  | [] => ([], [])
  | f :: rest =>
    let tail := validateFields rest inputs
    match lookupRaw inputs f.name with
    | none =>
      if f.required then (tail.1, (f.name, ["This field is required."]) :: tail.2)
      else tail
    | some v =>
      match coerceValue f.ftype v with
      | some cv => ((f.name, cv) :: tail.1, tail.2)
      | none => (tail.1, (f.name, [typeErrorMessage f.ftype]) :: tail.2)

/-- The mutable state of one `ServiceWithResult` instance during one
`execute` call: `cleaned_data` (populated by validation), the `_errors`
accumulator, and the `result` / `response_status` attributes that
`ServiceWithResult.__init__` initialises to `None`. -/
structure ServiceState (ρ : Type) : Type where
  cleaned_data : List (String × CleanVal)
  errors : ErrMap
  result : Option ρ
  response_status : Option Nat

/-- Models `add_error` as invoked on a service instance (it mutates `self._errors`). -/
def add_error {ρ : Type} (st : ServiceState ρ) (field : String) (error : ErrorVal)
    (field_index : Option Nat) : Except PyExc (ServiceState ρ) :=
  match addErrorMap st.errors field error field_index with
  | .ok m => .ok { st with errors := m }
  | .error e => .error e

/-- Models `Form.is_valid()` once the form is bound and cleaned: no accumulated errors. -/
def is_valid {ρ : Type} (st : ServiceState ρ) : Bool :=
  st.errors.isEmpty

/-- Reads `self.cleaned_data[k]` for an integer field (`KeyError` when absent). -/
def cleanedInt {ρ : Type} (st : ServiceState ρ) (k : String) : Except PyExc Int :=
  match (st.cleaned_data.find? (fun p => p.1 = k)).map (fun p => p.2) with
  | some (CleanVal.int i) => .ok i
  | some (CleanVal.str _) => .error (.keyError k)
  | none => .error (.keyError k)

/-- Observable events of one `execute` call, in order: opening the
transactional scope, running the `process` body, commit / rollback, and the
invocation of the `post_process` hook. -/
inductive Event : Type where
  | txOpen
  | bodyRun
  | commit
  | rollback
  | postProcess
  deriving DecidableEq, Repr

/-- One service class built on the framework: its declared fields, the
`db_transaction` / `run_post_process` class attributes, and its `process`
body (which receives and returns the instance state, or raises). -/
structure ServiceDef (ρ : Type) : Type where
  schema : List FieldDecl
  db_transaction : Bool
  run_post_process : Bool
  process : ServiceState ρ → Except PyExc (ServiceState ρ)

/-- Models `ServiceWithResult.service_clean` from `services.py`: run form validation
and raise `InvalidInputsError(errors, non_field_errors)` when it fails.  No
service of the repository overrides `clean`, so `non_field_errors` is empty. -/
def service_clean {ρ : Type} (sd : ServiceDef ρ) (inputs : List (String × RawVal)) :
    Except PyExc (List (String × CleanVal)) :=
  let validated := validateFields sd.schema inputs
  if validated.2.isEmpty then .ok validated.1
  else .error (.invalidInputs validated.2 [])

/-- Models `Service._process_context` from `services.py`, with the `process` body run
inside it (as `Service.execute` does).  The semantics of the external
transactional resource follow Django's documented contract:
`transaction.atomic` commits when the block exits normally and rolls back
when it raises, and `transaction.on_commit(cb)` runs `cb` only after a
successful commit, never on rollback.  With `db_transaction = False` there is
no transactional wrapper and `post_process` is called synchronously after the
body returns. -/
def process_context {ρ : Type} (sd : ServiceDef ρ) (st : ServiceState ρ) :
    Except PyExc (ServiceState ρ) × List Event :=
  if sd.db_transaction then
    match sd.process st with
    | .ok st' =>
        (.ok st', [.txOpen, .bodyRun, .commit] ++
          (if sd.run_post_process then [.postProcess] else []))
    | .error e => (.error e, [.txOpen, .bodyRun, .rollback])
  else
    match sd.process st with
    | .ok st' =>
        (.ok st', [.bodyRun] ++ (if sd.run_post_process then [.postProcess] else []))
    | .error e => (.error e, [.bodyRun])

/-- The instance state once `service_clean` has populated `cleaned_data`:
`__init__` set `result` and `response_status` to `None` and the error
accumulator is empty. -/
def initState {ρ : Type} (cleaned : List (String × CleanVal)) : ServiceState ρ :=
  { cleaned_data := cleaned, errors := [], result := none, response_status := none }

/-- Models `Service.execute` from `services.py`: construct the instance, run
`service_clean`, then run `process` inside `_process_context`.  The second
component is the trace of observable events of the call. -/
def serviceExecute {ρ : Type} (sd : ServiceDef ρ) (inputs : List (String × RawVal)) :
    Except PyExc (ServiceState ρ) × List Event :=
  match service_clean sd inputs with
  | .error e => (.error e, [])
  | .ok cleaned => process_context sd (initState cleaned)

/-- Models `ServiceWithResult.stop_process` from `services.py`. -/
def stop_process {ρ : Type} (st : ServiceState ρ) : Except PyExc (ServiceState ρ) :=
  if st.errors.isEmpty then .ok st
  else .error (.raisedError (errorInit .serviceObjectLogicError none none none none none
    (some (pyOrNat st.response_status 400)) (some st.errors)))

/-- The state of a successfully constructed `ServiceOutcome`: its own
`_errors` dict (initialised to `{}` and never written again), the copied
`result` and `response_status`, and `_outcome`, the executed service. -/
structure OutcomeState (ρ : Type) : Type where
  errors : ErrMap
  result : Option ρ
  response_status : Option Nat
  outcome : ServiceState ρ

/-- The `valid` property of `ServiceOutcome`. -/
def outcomeValid {ρ : Type} (o : OutcomeState ρ) : Bool :=
  o.errors.isEmpty

/-- Models `ServiceOutcome.__init__` and `ServiceOutcome.execute` from `services.py`:
run the service, copy its `response_status`, and if `bool(outcome.errors)`
raise `ServiceObjectLogicError(errors_dict=outcome.errors,
response_status=self.response_status)` — `hasattr(self, "response_status")`
is always true because `response_status` is a property, so the argument is
the service's own (possibly `None`) status and `Error.__init__` resolves a
falsy one to the `ValidationError` default 400.  Otherwise copy the
service's `result`. -/
def serviceOutcomeInit {ρ : Type} (sd : ServiceDef ρ) (inputs : List (String × RawVal)) :
    Except PyExc (OutcomeState ρ) × List Event :=
  match serviceExecute sd inputs with
  | (.error e, tr) => (.error e, tr)
  | (.ok outcome, tr) =>
    if outcome.errors.isEmpty then
      (.ok { errors := [], result := outcome.result,
             response_status := outcome.response_status, outcome := outcome }, tr)
    else
      (.error (.raisedError (errorInit .serviceObjectLogicError none none none none none
        outcome.response_status (some outcome.errors))), tr)

/-- A row of Django's `auth.User` table (only the primary key matters here). -/
structure User : Type where
  id : Int
  deriving DecidableEq, Repr

/-- The user table backing `User.objects`. -/
abbrev UserDB : Type := List User

/-- Django's `User.objects.get(id=i)`: returns the matching row, and raises
`User.DoesNotExist` when there is none (it never returns a falsy value). -/
def objectsGet (db : UserDB) (i : Int) : Except PyExc User :=
  match db.find? (fun u => u.id = i) with
  | some u => .ok u
  | none => .error .doesNotExist

/-- A Django model instance defines neither `__bool__` nor `__len__`, so
`not self._user` is `False` whenever the lookup returned at all. -/
def userTruthy (_ : User) : Bool :=
  true

/-- Models `RetrieveUserService.validate_presence_user` from
`api/services/user/retrieve.py`: read `self._user` (the `User.objects.get`
property) and, when it is falsy, add a `NotFound` error with message
`"Not found user with id = <id>"` under the `"id"` scope. -/
def validate_presence_user (db : UserDB) (st : ServiceState User) :
    Except PyExc (ServiceState User) := do
  let i ← cleanedInt st "id"
  let u ← objectsGet db i
  if userTruthy u then .ok st
  else
    add_error st "id"
      (errorInit .notFound none (some ("Not found user with id = " ++ toString i))
        none none none none none) none

/-- Models `RetrieveUserService.process` from `api/services/user/retrieve.py`:
run the custom validations, then — only when still valid — execute
`self.result = self._profile`.  No attribute `_profile` exists anywhere on
the class (the lookup property is named `_user`), so that assignment raises
`AttributeError`.  Finally `return self`. -/
def retrieveProcess (db : UserDB) (st : ServiceState User) :
    Except PyExc (ServiceState User) := do
  let st1 ← validate_presence_user db st
  if is_valid st1 then .error (.attributeError "_profile")
  else .ok st1

/-- Models `RetrieveUserService` as a `ServiceDef`: one required `IntegerField`
named `id`, the inherited `db_transaction = True` and
`run_post_process = True`, and `retrieveProcess` as the body. -/
def retrieveUserService (db : UserDB) : ServiceDef User :=
  { schema := [{ name := "id", ftype := .integer, required := true }],
    db_transaction := true, run_post_process := true,
    process := retrieveProcess db }

/-- A service written against the framework in the `RetrieveUserService`
shape (`process` runs the custom validations, then sets `result` only while
`is_valid`), whose single custom validation rejects its input with a
`NotFound` error.  It exercises the framework's custom-validation-failure
path on a concrete input. -/
def demoFailProcess (st : ServiceState Unit) : Except PyExc (ServiceState Unit) := do
  let st1 ← add_error st "id"
    (errorInit .notFound none (some "Not found user with id = 999")
      none none none none none) none
  if is_valid st1 then .ok { st1 with result := some () }
  else .ok st1

/-- The `demoFailProcess` service with the inherited class defaults
(`db_transaction = True`, `run_post_process = True`) and no declared fields. -/
def demoFailService : ServiceDef Unit :=
  { schema := [], db_transaction := true, run_post_process := true,
    process := demoFailProcess }

/-- A service whose body simply records a result and succeeds. -/
def demoOkProcess (st : ServiceState Nat) : Except PyExc (ServiceState Nat) :=
  .ok { st with result := some 42 }

/-- The `demoOkProcess` service with the inherited class defaults. -/
def demoOkService : ServiceDef Nat :=
  { schema := [], db_transaction := true, run_post_process := true,
    process := demoOkProcess }

/-- The `demoOkProcess` service with `db_transaction = False`, as
`NoDbTransactionService` in the repository's tests declares it. -/
def demoNoTxService : ServiceDef Nat :=
  { schema := [], db_transaction := false, run_post_process := true,
    process := demoOkProcess }

/-- A raised Python exception as `extend_exception_for_response` sees it: its
type name, its `str()` form, and its attributes.  `none` in the outer
`Option` models an absent attribute (the `hasattr` probes and the
`try: ... except AttributeError` blocks); for `debug_message`, `details` and
`additional_info` the inner `Option` distinguishes an attribute present but
`None` — as `Error.__init__` leaves them when no value is given — from a
present string value. -/
structure PyExcObj : Type where
  typeName : String
  strForm : String
  translation_key : Option String
  message : Option String
  debug_message : Option (Option String)
  details : Option (Option String)
  additional_info : Option (Option String)
  response_status : Option Nat
  deriving DecidableEq, Repr

/-- The Python class name of each taxonomy member. -/
def kindName : ErrorKind → String
  | .error => "Error"
  | .unauthorized => "Unauthorized"
  | .authenticationFailed => "AuthenticationFailed"
  | .accessDenied => "AccessDenied"
  | .notFound => "NotFound"
  | .validationError => "ValidationError"
  | .forbiddenError => "ForbiddenError"
  | .serviceObjectLogicError => "ServiceObjectLogicError"

/-- How a constructed `Error` instance presents itself to the attribute
probes of `extend_exception_for_response`: every probed attribute exists. -/
def toPyExcObj (e : ErrorVal) : PyExcObj :=
  { typeName := kindName e.kind, strForm := strError e,
    translation_key := some e.translation_key, message := some e.message,
    debug_message := some e.debug_message, details := some e.details,
    additional_info := some e.additional_info,
    response_status := some e.response_status }

/-- The list Python's `traceback.format_exception` returns: the header line,
then one formatted entry per stack frame ordered oldest call first — so the
final element of `frames` is the frame of the raise site — then the
`"Type: message"` line. -/
def formatException (exc : PyExcObj) (frames : List String) : List String :=
  "Traceback (most recent call last):\n" ::
    frames ++ [exc.typeName ++ ": " ++ exc.strForm ++ "\n"]

/-- The comprehension
`[line for index, line in enumerate(lines) if index != 1]`. -/
def dropIndexOne (lines : List String) : List String :=
  (lines.enum.filter (fun p => p.1 ≠ 1)).map (fun p => p.2)

/-- The `response_dict` payload shape built by `extend_exception_for_response`. -/
structure ResponseDict : Type where
  type : String
  message : String
  translation_key : String
  debug_message : Option String
  backtrace : List String
  details : Option String
  additional_info : Option String
  deriving DecidableEq, Repr

/-- Models `extend_exception_for_response` from `errors.py`, called — as at the
repository's boundary — inside the `except` block handling `exception`
itself, so the `sys.exc_info()` triple describes that same exception and
`frames` is the formatted frame list of its traceback.  Returns the
`response_dict` payload it attaches to the exception, together with the
resolved `response_status` it sets. -/
def extend_exception_for_response (exception : PyExcObj) (frames : List String) :
    ResponseDict × Nat :=
  let tk := match exception.translation_key with
    | some t => t
    | none => "internal_server_error"
  let dm := match exception.debug_message with
    | some v => v
    | none => some exception.strForm
  let det := match exception.details with
    | some v => v
    | none => none
  let ai := match exception.additional_info with
    | some v => v
    | none => none
  let rs := match exception.response_status with
    | some r => r
    | none => 500
  let msg := match exception.message with
    | some m => m
    | none => "We are sorry but something went wrong"
  ({ type := exception.typeName, message := msg, translation_key := tk,
     debug_message := dm,
     backtrace := dropIndexOne (formatException exception frames),
     details := det, additional_info := ai }, rs)

/-! Helper lemmas. -/

theorem dictGet_dictSet_self (m : List (String × ScopeVal)) (k : String) (v : ScopeVal) :
    dictGet (dictSet m k v) k = some v := by
  induction m with
  | nil => simp [dictGet, dictSet, List.find?]
  | cons hd tl ih =>
    by_cases h : hd.1 = k
    · simp [dictSet, h, dictGet, List.find?]
    · cases hd with
      | mk k' v' =>
        simp only at h
        simp only [dictSet, if_neg h]
        simpa [dictGet, List.find?, h] using ih

/-! ## C6: round-trip on a fully valid input -/

/-- C6 (code_bug): for the input `{id: 1}` with a user of id 1 present —
an input passing the schema and leaving the custom validation chain with no
errors — the claim says constructing a `ServiceOutcome` raises nothing and
its `result` equals the domain body's value.  The code instead raises
`AttributeError` and rolls the transaction back, because
`RetrieveUserService.process` assigns `self.result = self._profile` and no
attribute `_profile` exists on the class (the user-lookup property is named
`_user`). -/
theorem c6_profile_attribute_bug :
    serviceExecute (retrieveUserService [{ id := 1 }]) [("id", RawVal.int 1)] =
      (.error (.attributeError "_profile"), [.txOpen, .bodyRun, .rollback]) ∧
    serviceOutcomeInit (retrieveUserService [{ id := 1 }]) [("id", RawVal.int 1)] =
      (.error (.attributeError "_profile"), [.txOpen, .bodyRun, .rollback]) :=
  ⟨rfl, rfl⟩

/-! ## C8: retrieving a missing user -/

/-- C8 (code_bug): for the input `{id: 999}` with no user of id 999, the
claim says `RetrieveUserService` raises a structured error mapping `"id"` to
`"Not found user with id = 999"`.  The code instead lets `User.DoesNotExist`
— raised by `User.objects.get` inside the `_user` property, since Django's
`get` raises on no match rather than returning a falsy value — propagate
unstructured out of `execute`, rolling back the transaction;
`validate_presence_user`'s `add_error` branch is unreachable. -/
theorem c8_doesnotexist_bug :
    serviceExecute (retrieveUserService []) [("id", RawVal.int 999)] =
      (.error .doesNotExist, [.txOpen, .bodyRun, .rollback]) ∧
    serviceOutcomeInit (retrieveUserService []) [("id", RawVal.int 999)] =
      (.error .doesNotExist, [.txOpen, .bodyRun, .rollback]) :=
  ⟨rfl, rfl⟩

/-! ## C2: `add_error` semantics -/

/-- A `NotFound` error such as `validate_presence_user` constructs. -/
def demoNotFoundError : ErrorVal :=
  errorInit .notFound none (some "Not found user with id = 999") none none none none none

/-- A `ValidationError` with an explicit message. -/
def demoValidationError : ErrorVal :=
  errorInit .validationError none (some "bad value") none none none none none

/-- C2 counterexample: invoking `add_error` with an explicit `field_index` on
a scope key that already holds unindexed (list) entries does *not* produce an
indexed sub-mapping — the source evaluates `self._errors[field].get(field_index)`
on a Python `list`, which has no `get` method, so the call raises
`AttributeError` and no updated error map exists. -/
theorem c2_counterexample :
    addErrorMap [("tags", .plain [.errObj demoNotFoundError])] "tags"
        demoValidationError (some 0) = .error (.attributeError "get") ∧
    ∀ m' : ErrMap, addErrorMap [("tags", .plain [.errObj demoNotFoundError])] "tags"
        demoValidationError (some 0) ≠ .ok m' :=
  ⟨rfl, fun _ h => Except.noConfusion h⟩

/-- C2 amended: `add_error(field, error, field_index)` behaves as claimed in
all but the last case — with `field_index` omitted it creates a fresh
single-element list or appends to an existing list, and with an explicit
`field_index` on a scope already holding indexed sub-errors it appends at
that index, creates the index afresh when absent, and creates a fresh indexed
sub-mapping when the scope key has no entries at all; but an explicit
`field_index` on a scope key previously holding unindexed (list) entries
raises `AttributeError` (a list has no `get` method) instead of producing an
indexed sub-mapping. -/
theorem c2_amended (m : ErrMap) (field : String) (e : ErrorVal) (i : Nat) :
    (truthyGet m field = none →
      ∃ m', addErrorMap m field e none = .ok m' ∧
        dictGet m' field = some (.plain [preparedError e])) ∧
    (∀ es, truthyGet m field = some (.plain es) →
      ∃ m', addErrorMap m field e none = .ok m' ∧
        dictGet m' field = some (.plain (es ++ [preparedError e]))) ∧
    (∀ sub es, truthyGet m field = some (.indexed sub) → truthyGetNat sub i = some es →
      ∃ m', addErrorMap m field e (some i) = .ok m' ∧
        dictGet m' field = some (.indexed (dictSetNat sub i (es ++ [preparedError e])))) ∧
    (∀ sub, truthyGet m field = some (.indexed sub) → truthyGetNat sub i = none →
      ∃ m', addErrorMap m field e (some i) = .ok m' ∧
        dictGet m' field = some (.indexed (dictSetNat sub i [preparedError e]))) ∧
    (truthyGet m field = none →
      ∃ m', addErrorMap m field e (some i) = .ok m' ∧
        dictGet m' field = some (.indexed [(i, [preparedError e])])) ∧
    (∀ es, truthyGet m field = some (.plain es) →
      addErrorMap m field e (some i) = .error (.attributeError "get")) := by
  refine ⟨?_, ?_, ?_, ?_, ?_, ?_⟩
  · intro h
    exact ⟨dictSet m field (.plain [preparedError e]),
      by simp [addErrorMap, h], dictGet_dictSet_self ..⟩
  · intro es h
    exact ⟨dictSet m field (.plain (es ++ [preparedError e])),
      by simp [addErrorMap, h], dictGet_dictSet_self ..⟩
  · intro sub es h hn
    exact ⟨dictSet m field (.indexed (dictSetNat sub i (es ++ [preparedError e]))),
      by simp [addErrorMap, h, hn], dictGet_dictSet_self ..⟩
  · intro sub h hn
    exact ⟨dictSet m field (.indexed (dictSetNat sub i [preparedError e])),
      by simp [addErrorMap, h, hn], dictGet_dictSet_self ..⟩
  · intro h
    exact ⟨dictSet m field (.indexed [(i, [preparedError e])]),
      by simp [addErrorMap, h], dictGet_dictSet_self ..⟩
  · intro es h
    simp [addErrorMap, h]

/-- C2 witness: the amended behaviours at concrete error maps. -/
theorem c2_witness :
    (∃ m', addErrorMap [] "id" demoValidationError none = .ok m' ∧
      dictGet m' "id" = some (.plain [preparedError demoValidationError])) ∧
    (∃ m', addErrorMap [("id", .plain [.errObj demoNotFoundError])] "id"
        demoValidationError none = .ok m' ∧
      dictGet m' "id" = some (.plain ([.errObj demoNotFoundError] ++
        [preparedError demoValidationError]))) ∧
    (∃ m', addErrorMap [("id", .indexed [(2, [.errObj demoNotFoundError])])] "id"
        demoValidationError (some 2) = .ok m' ∧
      dictGet m' "id" = some (.indexed (dictSetNat [(2, [.errObj demoNotFoundError])] 2
        ([.errObj demoNotFoundError] ++ [preparedError demoValidationError])))) ∧
    (∃ m', addErrorMap [("id", .indexed [(2, [.errObj demoNotFoundError])])] "id"
        demoValidationError (some 5) = .ok m' ∧
      dictGet m' "id" = some (.indexed (dictSetNat [(2, [.errObj demoNotFoundError])] 5
        [preparedError demoValidationError]))) ∧
    (∃ m', addErrorMap [] "id" demoValidationError (some 2) = .ok m' ∧
      dictGet m' "id" = some (.indexed [(2, [preparedError demoValidationError])])) ∧
    addErrorMap [("other", .plain [.errObj demoNotFoundError])] "other"
      demoValidationError (some 1) = .error (.attributeError "get") :=
  ⟨(c2_amended [] "id" demoValidationError 0).1 rfl,
   (c2_amended [("id", .plain [.errObj demoNotFoundError])] "id"
      demoValidationError 0).2.1 [.errObj demoNotFoundError] rfl,
   (c2_amended [("id", .indexed [(2, [.errObj demoNotFoundError])])] "id"
      demoValidationError 2).2.2.1 [(2, [.errObj demoNotFoundError])]
      [.errObj demoNotFoundError] rfl rfl,
   (c2_amended [("id", .indexed [(2, [.errObj demoNotFoundError])])] "id"
      demoValidationError 5).2.2.2.1 [(2, [.errObj demoNotFoundError])] rfl rfl,
   (c2_amended [] "id" demoValidationError 2).2.2.2.2.1 rfl,
   (c2_amended [("other", .plain [.errObj demoNotFoundError])] "other"
      demoValidationError 1).2.2.2.2.2 [.errObj demoNotFoundError] rfl⟩

/-! ## C3: omitted required fields -/

/-- Every required field omitted from the inputs appears in the field-error
map produced by validation, mapped to `["This field is required."]`. -/
theorem validateFields_required_missing (schema : List FieldDecl)
    (inputs : List (String × RawVal)) (g : FieldDecl) (hg : g ∈ schema)
    (hreq : g.required = true) (hmiss : lookupRaw inputs g.name = none) :
    (((validateFields schema inputs).2.find? (fun p => p.1 = g.name)).map
      (fun p => p.2)) = some ["This field is required."] := by
  induction schema with
  | nil => cases hg
  | cons f rest ih =>
    rcases List.mem_cons.mp hg with hEq | hMem
    · subst hEq
      simp [validateFields, hmiss, hreq, List.find?]
    · by_cases hname : f.name = g.name
      · have hfmiss : lookupRaw inputs f.name = none := by rw [hname]; exact hmiss
        by_cases hfreq : f.required = true
        · simp [validateFields, hfmiss, hmiss, hfreq, List.find?, hname]
        · simp only [validateFields, hfmiss, if_neg hfreq]
          exact ih hMem
      · rcases hlook : lookupRaw inputs f.name with _ | v
        · by_cases hfreq : f.required = true
          · simp only [validateFields, hlook, if_pos hfreq, List.find?]
            simp only [decide_eq_true_eq, hname, ite_false]
            simpa using ih hMem
          · simp only [validateFields, hlook, if_neg hfreq]
            exact ih hMem
        · rcases hco : coerceValue f.ftype v with _ | cv
          · simp only [validateFields, hlook, hco, List.find?]
            simp only [decide_eq_true_eq, hname, ite_false]
            simpa using ih hMem
          · simp only [validateFields, hlook, hco]
            exact ih hMem

/-- C3 (spec-modelled field validation): if the input omits at least one
required field, `execute()` raises an `InvalidInputsError` before any
processing, and its field-error map sends *every* omitted required field name
to the message "This field is required." — all collected in the one call. -/
theorem c3_required_fields {ρ : Type} (sd : ServiceDef ρ)
    (inputs : List (String × RawVal)) (f : FieldDecl) (hf : f ∈ sd.schema)
    (hreq : f.required = true) (hmiss : lookupRaw inputs f.name = none) :
    ∃ fe nfe, serviceExecute sd inputs = (.error (.invalidInputs fe nfe), []) ∧
      ∀ g ∈ sd.schema, g.required = true → lookupRaw inputs g.name = none →
        ((fe.find? (fun p => p.1 = g.name)).map (fun p => p.2)) =
          some ["This field is required."] := by
  refine ⟨(validateFields sd.schema inputs).2, [], ?_, ?_⟩
  · have hne : (validateFields sd.schema inputs).2.isEmpty = false := by
      have hfind := validateFields_required_missing sd.schema inputs f hf hreq hmiss
      rcases hE : (validateFields sd.schema inputs).2 with _ | ⟨hd, tl⟩
      · rw [hE] at hfind
        simp [List.find?] at hfind
      · rfl
    simp [serviceExecute, service_clean, hne]
  · intro g hg hgreq hgmiss
    exact validateFields_required_missing sd.schema inputs g hg hgreq hgmiss

/-- A service with two required fields, to witness that errors for all
omitted required fields are collected in one call. -/
def demoTwoFieldService : ServiceDef Nat :=
  { schema := [{ name := "a", ftype := .integer, required := true },
               { name := "b", ftype := .string, required := true }],
    db_transaction := true, run_post_process := true, process := demoOkProcess }

/-- C3 witness: omitting both required fields of `demoTwoFieldService`
raises one `InvalidInputsError` whose map sends each of them to
"This field is required.". -/
theorem c3_witness :
    ∃ fe nfe, serviceExecute demoTwoFieldService [] = (.error (.invalidInputs fe nfe), []) ∧
      ∀ g ∈ demoTwoFieldService.schema, g.required = true → lookupRaw [] g.name = none →
        ((fe.find? (fun p => p.1 = g.name)).map (fun p => p.2)) =
          some ["This field is required."] :=
  c3_required_fields demoTwoFieldService []
    { name := "a", ftype := .integer, required := true }
    (by simp [demoTwoFieldService]) rfl rfl

/-! ## C4: transactional scope and the post-process hook -/

/-- C4 (confirmed): for any service whose inputs pass schema validation —
with `db_transaction = False`, `execute()` opens no transactional scope and,
when `run_post_process` is true, the `post_process` hook runs synchronously
right after the body returns (the event trace of the call is
`[bodyRun, postProcess]`), before `execute()` returns; with
`db_transaction = True`, the hook runs only after a successful commit (the
trace is `[txOpen, bodyRun, commit, postProcess]`), and when the body raises
the transaction rolls back and the hook never runs. -/
theorem c4_transaction_boundary {ρ : Type} (sd : ServiceDef ρ)
    (inputs : List (String × RawVal)) (cleaned : List (String × CleanVal))
    (hclean : service_clean sd inputs = .ok cleaned) :
    (sd.db_transaction = false →
      Event.txOpen ∉ (serviceExecute sd inputs).2 ∧
      (sd.run_post_process = true → ∀ st', sd.process (initState cleaned) = .ok st' →
        (serviceExecute sd inputs).2 = [.bodyRun, .postProcess])) ∧
    (sd.db_transaction = true →
      (∀ st', sd.process (initState cleaned) = .ok st' →
        sd.run_post_process = true →
        (serviceExecute sd inputs).2 = [.txOpen, .bodyRun, .commit, .postProcess]) ∧
      (∀ e, sd.process (initState cleaned) = .error e →
        (serviceExecute sd inputs).2 = [.txOpen, .bodyRun, .rollback] ∧
        Event.postProcess ∉ (serviceExecute sd inputs).2)) := by
  have hex : serviceExecute sd inputs = process_context sd (initState cleaned) := by
    simp [serviceExecute, hclean]
  rw [hex]
  constructor
  · intro hdb
    constructor
    · rcases hp : sd.process (initState cleaned) with e | st' <;>
        rcases hrp : sd.run_post_process <;>
        simp [process_context, hdb, hp, hrp]
    · intro hrp st' hp
      simp [process_context, hdb, hp, hrp]
  · intro hdb
    constructor
    · intro st' hp hrp
      simp [process_context, hdb, hp, hrp]
    · intro e hp
      simp [process_context, hdb, hp]

/-- A service whose body raises, to witness the rollback branch. -/
def demoRaiseProcess (_ : ServiceState Nat) : Except PyExc (ServiceState Nat) :=
  .error (.raisedError (errorInit .error none none none none none none none))

/-- The `demoRaiseProcess` service with the inherited class defaults. -/
def demoRaiseService : ServiceDef Nat :=
  { schema := [], db_transaction := true, run_post_process := true,
    process := demoRaiseProcess }

/-- C4 witness: the three traces at concrete services — no transactional
scope and a synchronous hook for `demoNoTxService`, hook strictly after
commit for `demoOkService`, and rollback with no hook for
`demoRaiseService`. -/
theorem c4_witness :
    (Event.txOpen ∉ (serviceExecute demoNoTxService []).2 ∧
      (serviceExecute demoNoTxService []).2 = [.bodyRun, .postProcess]) ∧
    (serviceExecute demoOkService []).2 = [.txOpen, .bodyRun, .commit, .postProcess] ∧
    ((serviceExecute demoRaiseService []).2 = [.txOpen, .bodyRun, .rollback] ∧
      Event.postProcess ∉ (serviceExecute demoRaiseService []).2) :=
  ⟨⟨((c4_transaction_boundary demoNoTxService [] [] rfl).1 rfl).1,
    ((c4_transaction_boundary demoNoTxService [] [] rfl).1 rfl).2 rfl
      { cleaned_data := [], errors := [], result := some 42, response_status := none } rfl⟩,
   ((c4_transaction_boundary demoOkService [] [] rfl).2 rfl).1
     { cleaned_data := [], errors := [], result := some 42, response_status := none } rfl rfl,
   ((c4_transaction_boundary demoRaiseService [] [] rfl).2 rfl).2
     (.raisedError (errorInit .error none none none none none none none)) rfl⟩

/-! ## C1: what happens when a custom validation adds an error -/

/-- The terminal instance state of `demoFailProcess` on the empty input. -/
def demoFailState : ServiceState Unit :=
  { cleaned_data := [], errors := [("id", .plain [.errObj demoNotFoundError])],
    result := none, response_status := none }

/-- C1 counterexample: a service in the repository's shape whose input
passes schema validation and whose custom validation adds an error.  The
claim says the domain logic body must not run, no transactional scope is
opened and no commit or post-process side effect occurs — but the framework
runs the custom validations *inside* `process`, which `execute` has already
wrapped in `transaction.atomic`, so the trace of the call contains the
transaction opening, the body run, the commit, and the post-process hook. -/
theorem c1_counterexample :
    service_clean demoFailService [] = .ok [] ∧
    (∃ st', demoFailService.process (initState []) = .ok st' ∧ st'.errors ≠ []) ∧
    Event.txOpen ∈ (serviceExecute demoFailService []).2 ∧
    Event.bodyRun ∈ (serviceExecute demoFailService []).2 ∧
    Event.commit ∈ (serviceExecute demoFailService []).2 ∧
    Event.postProcess ∈ (serviceExecute demoFailService []).2 := by
  have htr : (serviceExecute demoFailService []).2 =
      [Event.txOpen, .bodyRun, .commit, .postProcess] := rfl
  refine ⟨rfl, ⟨demoFailState, rfl, by simp [demoFailState]⟩, ?_, ?_, ?_, ?_⟩ <;>
    rw [htr] <;> simp

/-- C1 amended: when an input passes schema validation and the custom
validations (run by the `process` body, which this framework executes inside
the transactional scope) leave a non-empty accumulator, the body runs, the
transaction opens and commits, the post-process hook runs, and the
`LogicError`-kind failure carrying the full accumulated error map — with a
response status defaulting to 400 — is raised afterwards, by the
`ServiceOutcome` wrapper. -/
theorem c1_amended {ρ : Type} (sd : ServiceDef ρ) (inputs : List (String × RawVal))
    (cleaned : List (String × CleanVal)) (st' : ServiceState ρ)
    (hdb : sd.db_transaction = true) (hpp : sd.run_post_process = true)
    (hclean : service_clean sd inputs = .ok cleaned)
    (hbody : sd.process (initState cleaned) = .ok st')
    (herr : st'.errors ≠ []) :
    serviceOutcomeInit sd inputs =
      (.error (.raisedError (errorInit .serviceObjectLogicError none none none none none
         st'.response_status (some st'.errors))),
       [.txOpen, .bodyRun, .commit, .postProcess]) ∧
    (errorInit .serviceObjectLogicError none none none none none
       st'.response_status (some st'.errors)).errors_dict = some st'.errors ∧
    (errorInit .serviceObjectLogicError none none none none none
       st'.response_status (some st'.errors)).response_status =
      pyOrNat st'.response_status 400 ∧
    (errorInit .serviceObjectLogicError none none none none none
       st'.response_status (some st'.errors)).kind = .serviceObjectLogicError := by
  have hempty : st'.errors.isEmpty = false := by
    rcases hE : st'.errors with _ | ⟨a, l⟩
    · exact absurd hE herr
    · rfl
  refine ⟨?_, rfl, rfl, rfl⟩
  simp [serviceOutcomeInit, serviceExecute, hclean, process_context, hdb, hpp, hbody, hempty]

/-- C1 witness: the amended behaviour at the concrete failing service. -/
theorem c1_witness :
    serviceOutcomeInit demoFailService [] =
      (.error (.raisedError (errorInit .serviceObjectLogicError none none none none none
         none (some [("id", .plain [.errObj demoNotFoundError])]))),
       [.txOpen, .bodyRun, .commit, .postProcess]) ∧
    (errorInit .serviceObjectLogicError none none none none none
       none (some [("id", .plain [.errObj demoNotFoundError])])).errors_dict =
      some [("id", .plain [.errObj demoNotFoundError])] ∧
    (errorInit .serviceObjectLogicError none none none none none
       none (some [("id", .plain [.errObj demoNotFoundError])])).response_status =
      pyOrNat none 400 ∧
    (errorInit .serviceObjectLogicError none none none none none
       none (some [("id", .plain [.errObj demoNotFoundError])])).kind =
      .serviceObjectLogicError :=
  c1_amended demoFailService [] [] demoFailState rfl rfl rfl rfl
    (by simp [demoFailState])

/-! ## C5: the `ServiceOutcome` decision point -/

/-- C5 (confirmed): once the service's `execute` terminates normally,
constructing a `ServiceOutcome` raises a `ServiceObjectLogicError` carrying
the terminal error map and the resolved response status — the status the
service set during execution, defaulting to 400 when unset (the falsy-`or`
resolution of `Error.__init__`, since `ServiceObjectLogicError` subclasses
`ValidationError`) — exactly when the terminal accumulator is non-empty;
when it is empty nothing is raised and the instance exposes the service's
`result` and `response_status`. -/
theorem c5_outcome_decision {ρ : Type} (sd : ServiceDef ρ)
    (inputs : List (String × RawVal)) (outcome : ServiceState ρ) (tr : List Event)
    (hexec : serviceExecute sd inputs = (.ok outcome, tr)) :
    (outcome.errors ≠ [] →
      serviceOutcomeInit sd inputs =
        (.error (.raisedError (errorInit .serviceObjectLogicError none none none none none
           outcome.response_status (some outcome.errors))), tr) ∧
      (errorInit .serviceObjectLogicError none none none none none
         outcome.response_status (some outcome.errors)).errors_dict = some outcome.errors ∧
      (errorInit .serviceObjectLogicError none none none none none
         outcome.response_status (some outcome.errors)).response_status =
        pyOrNat outcome.response_status 400) ∧
    (outcome.errors = [] →
      ∃ o : OutcomeState ρ, serviceOutcomeInit sd inputs = (.ok o, tr) ∧
        o.result = outcome.result ∧ o.response_status = outcome.response_status) := by
  constructor
  · intro herr
    have hempty : outcome.errors.isEmpty = false := by
      rcases hE : outcome.errors with _ | ⟨a, l⟩
      · exact absurd hE herr
      · rfl
    refine ⟨?_, rfl, rfl⟩
    simp [serviceOutcomeInit, hexec, hempty]
  · intro hnil
    exact ⟨{ errors := [], result := outcome.result,
             response_status := outcome.response_status, outcome := outcome },
      by simp [serviceOutcomeInit, hexec, hnil], rfl, rfl⟩

/-- The terminal instance state of `demoOkProcess` on the empty input. -/
def demoOkState : ServiceState Nat :=
  { cleaned_data := [], errors := [], result := some 42, response_status := none }

/-- C5 witness: the raising branch at `demoFailService` and the exposing
branch at `demoOkService`. -/
theorem c5_witness :
    (serviceOutcomeInit demoFailService [] =
      (.error (.raisedError (errorInit .serviceObjectLogicError none none none none none
         none (some [("id", .plain [.errObj demoNotFoundError])]))),
       [.txOpen, .bodyRun, .commit, .postProcess]) ∧
     (errorInit .serviceObjectLogicError none none none none none
        none (some [("id", .plain [.errObj demoNotFoundError])])).errors_dict =
       some [("id", .plain [.errObj demoNotFoundError])] ∧
     (errorInit .serviceObjectLogicError none none none none none
        none (some [("id", .plain [.errObj demoNotFoundError])])).response_status =
       pyOrNat none 400) ∧
    (∃ o : OutcomeState Nat,
      serviceOutcomeInit demoOkService [] =
        (.ok o, [.txOpen, .bodyRun, .commit, .postProcess]) ∧
      o.result = some 42 ∧ o.response_status = none) :=
  ⟨(c5_outcome_decision demoFailService [] demoFailState
      [.txOpen, .bodyRun, .commit, .postProcess] rfl).1 (by simp [demoFailState]),
   (c5_outcome_decision demoOkService [] demoOkState
      [.txOpen, .bodyRun, .commit, .postProcess] rfl).2 rfl⟩

/-! ## C9: every accessible `ServiceOutcome` is valid -/

/-- C9 (confirmed): whenever constructing a `ServiceOutcome` succeeds, the
instance's own `_errors` dict — initialised to `{}` and never written again
— is empty and `valid` is `True`; when the executed service terminates with
a non-empty accumulator the constructor raises before any instance is
usable, so no accessible `ServiceOutcome` ever reports invalid. -/
theorem c9_outcome_always_valid {ρ : Type} (sd : ServiceDef ρ)
    (inputs : List (String × RawVal)) (o : OutcomeState ρ) (tr : List Event)
    (h : serviceOutcomeInit sd inputs = (.ok o, tr)) :
    o.errors = [] ∧ outcomeValid o = true := by
  unfold serviceOutcomeInit at h
  split at h
  · simp at h
  · split at h
    · simp only [Prod.mk.injEq] at h
      obtain ⟨h1, _⟩ := h
      injection h1 with h1
      subst h1
      exact ⟨rfl, rfl⟩
    · simp at h

/-- C9 witness: the successfully constructed outcome of `demoOkService`. -/
theorem c9_witness :
    ∃ o : OutcomeState Nat, serviceOutcomeInit demoOkService [] =
      (.ok o, [.txOpen, .bodyRun, .commit, .postProcess]) ∧
      o.errors = [] ∧ outcomeValid o = true :=
  ⟨{ errors := [], result := some 42, response_status := none, outcome := demoOkState },
   rfl,
   c9_outcome_always_valid demoOkService []
     { errors := [], result := some 42, response_status := none, outcome := demoOkState }
     [.txOpen, .bodyRun, .commit, .postProcess] rfl⟩

/-! ## C7: the boundary error payload -/

theorem enumFrom_filter_map_of_two_le (l : List String) (n : Nat) (h : 2 ≤ n) :
    ((List.enumFrom n l).filter (fun p => p.1 ≠ 1)).map (fun p => p.2) = l := by
  induction l generalizing n with
  | nil => rfl
  | cons a t ih =>
    have hne : n ≠ 1 := by omega
    rw [List.enumFrom, List.filter_cons, if_pos (by simpa using hne), List.map_cons,
      ih (n + 1) (by omega)]

/-- Removing index 1 from a list with at least two elements removes exactly
the second element. -/
theorem dropIndexOne_cons_cons (x y : String) (l : List String) :
    dropIndexOne (x :: y :: l) = x :: l := by
  rw [dropIndexOne, show List.enum (x :: y :: l) =
    (0, x) :: (1, y) :: List.enumFrom 2 l from rfl, List.filter_cons, List.filter_cons]
  norm_num
  simpa [decide_not] using enumFrom_filter_map_of_two_le l 2 (le_refl 2)

/-- An unstructured exception (`RuntimeError("boom")`): none of the
attributes `extend_exception_for_response` probes exist on it. -/
def plainRuntimeError : PyExcObj :=
  { typeName := "RuntimeError", strForm := "boom", translation_key := none,
    message := none, debug_message := none, details := none,
    additional_info := none, response_status := none }

/-- C7 counterexample: the claim says the backtrace elides the immediate
raise-site frame.  `traceback.format_exception` lists frames oldest call
first, so with a two-frame traceback the raise-site frame is the *second*
frame entry — index 2 of the formatted list — while the source's
comprehension removes index 1, the outermost (catch-site-adjacent) frame.
The payload backtrace therefore still contains the raise-site frame. -/
theorem c7_counterexample :
    (extend_exception_for_response plainRuntimeError
        ["frame of catching caller\n", "frame of raise site\n"]).1.backtrace =
      ["Traceback (most recent call last):\n", "frame of raise site\n",
       "RuntimeError: boom\n"] ∧
    "frame of raise site\n" ∈ (extend_exception_for_response plainRuntimeError
        ["frame of catching caller\n", "frame of raise site\n"]).1.backtrace := by
  constructor
  · rfl
  · rw [show (extend_exception_for_response plainRuntimeError
        ["frame of catching caller\n", "frame of raise site\n"]).1.backtrace =
      ["Traceback (most recent call last):\n", "frame of raise site\n",
       "RuntimeError: boom\n"] from rfl]
    simp

/-- C7 amended: `extend_exception_for_response` produces the payload
`{type, message, translation_key, debug_message, backtrace, details,
additional_info}` with `translation_key` defaulting to
`"internal_server_error"` when the exception has no such attribute,
`message` defaulting to the generic fallback string, `response_status`
defaulting to 500, and `debug_message` defaulting to the underlying
exception's string form when the attribute is not set; the backtrace elides
the entry at index 1 of the formatted traceback — the outermost recorded
frame, adjacent to the catch site — so the raise-site frame is retained
whenever the traceback is more than one frame deep. -/
theorem c7_amended (exc : PyExcObj) (frames : List String) :
    (extend_exception_for_response exc frames).1.type = exc.typeName ∧
    (exc.translation_key = none →
      (extend_exception_for_response exc frames).1.translation_key =
        "internal_server_error") ∧
    (exc.message = none →
      (extend_exception_for_response exc frames).1.message =
        "We are sorry but something went wrong") ∧
    (exc.response_status = none → (extend_exception_for_response exc frames).2 = 500) ∧
    (exc.debug_message = none →
      (extend_exception_for_response exc frames).1.debug_message = some exc.strForm) ∧
    (extend_exception_for_response exc frames).1.backtrace =
      dropIndexOne (formatException exc frames) ∧
    (∀ f0 rest, frames = f0 :: rest →
      (extend_exception_for_response exc frames).1.backtrace =
        "Traceback (most recent call last):\n" ::
          (rest ++ [exc.typeName ++ ": " ++ exc.strForm ++ "\n"])) := by
  refine ⟨rfl, ?_, ?_, ?_, ?_, rfl, ?_⟩
  · intro h
    simp [extend_exception_for_response, h]
  · intro h
    simp [extend_exception_for_response, h]
  · intro h
    simp [extend_exception_for_response, h]
  · intro h
    simp [extend_exception_for_response, h]
  · intro f0 rest hfr
    subst hfr
    show dropIndexOne (formatException exc (f0 :: rest)) = _
    rw [show formatException exc (f0 :: rest) =
      "Traceback (most recent call last):\n" :: f0 ::
        (rest ++ [exc.typeName ++ ": " ++ exc.strForm ++ "\n"]) from rfl]
    exact dropIndexOne_cons_cons ..

/-- C7 witness: the amended payload at a concrete unstructured exception
with a two-frame traceback. -/
theorem c7_witness :
    (extend_exception_for_response plainRuntimeError ["outer\n", "raiser\n"]).1.type =
      "RuntimeError" ∧
    (extend_exception_for_response plainRuntimeError
        ["outer\n", "raiser\n"]).1.translation_key = "internal_server_error" ∧
    (extend_exception_for_response plainRuntimeError ["outer\n", "raiser\n"]).1.message =
      "We are sorry but something went wrong" ∧
    (extend_exception_for_response plainRuntimeError ["outer\n", "raiser\n"]).2 = 500 ∧
    (extend_exception_for_response plainRuntimeError
        ["outer\n", "raiser\n"]).1.debug_message = some "boom" ∧
    (extend_exception_for_response plainRuntimeError ["outer\n", "raiser\n"]).1.backtrace =
      "Traceback (most recent call last):\n" :: (["raiser\n"] ++ ["RuntimeError" ++ ": " ++ "boom" ++ "\n"]) :=
  ⟨(c7_amended plainRuntimeError ["outer\n", "raiser\n"]).1,
   (c7_amended plainRuntimeError ["outer\n", "raiser\n"]).2.1 rfl,
   (c7_amended plainRuntimeError ["outer\n", "raiser\n"]).2.2.1 rfl,
   (c7_amended plainRuntimeError ["outer\n", "raiser\n"]).2.2.2.1 rfl,
   (c7_amended plainRuntimeError ["outer\n", "raiser\n"]).2.2.2.2.1 rfl,
   (c7_amended plainRuntimeError ["outer\n", "raiser\n"]).2.2.2.2.2.2
     "outer\n" ["raiser\n"] rfl⟩

/-! ## C10: falsy constructor arguments resolve to class defaults -/

/-- C10 (confirmed): for every taxonomy kind and every construction, each
falsy argument independently resolves its attribute to the class default —
a falsy `translation_key` (`None` or `""`) yields the default translation
key, a falsy `message` the default message, and a falsy `response_status`
(`None` or `0`) the default status, whatever the other arguments are — and
the resolved message is the argument handed to the base `Exception`
constructor, so `str(error)` equals the resolved message for every
construction. -/
theorem c10_error_constructor_defaults (kind : ErrorKind)
    (tk msg dm det ai : Option String) (rs : Option Nat) (ed : Option ErrMap) :
    ((tk = none ∨ tk = some "") →
      (errorInit kind tk msg dm det ai rs ed).translation_key =
        defaultTranslationKey kind) ∧
    ((msg = none ∨ msg = some "") →
      (errorInit kind tk msg dm det ai rs ed).message = defaultMessage kind) ∧
    ((rs = none ∨ rs = some 0) →
      (errorInit kind tk msg dm det ai rs ed).response_status =
        defaultResponseStatus kind) ∧
    strError (errorInit kind tk msg dm det ai rs ed) =
      (errorInit kind tk msg dm det ai rs ed).message := by
  refine ⟨?_, ?_, ?_, rfl⟩
  · rintro (h | h) <;> subst h <;>
      simp [errorInit, pyOrStr, ErrorVal.translation_key]
  · rintro (h | h) <;> subst h <;>
      simp [errorInit, pyOrStr, ErrorVal.message]
  · rintro (h | h) <;> subst h <;>
      simp [errorInit, pyOrNat, ErrorVal.response_status]

/-- C10 witness: the repository's own mixed construction
`NotFound(message="Not found user with id = 999")` — non-falsy message,
omitted `translation_key` and `response_status` — resolves the omitted
attributes to the `NotFound` defaults while `str` equals the stored message;
and a falsy `""` message resolves to the default message. -/
theorem c10_witness :
    (errorInit .notFound none (some "Not found user with id = 999")
        none none none none none).translation_key = defaultTranslationKey .notFound ∧
    (errorInit .notFound none (some "Not found user with id = 999")
        none none none none none).response_status = defaultResponseStatus .notFound ∧
    strError (errorInit .notFound none (some "Not found user with id = 999")
        none none none none none) =
      (errorInit .notFound none (some "Not found user with id = 999")
        none none none none none).message ∧
    (errorInit .notFound none (some "") none none none none none).message =
      defaultMessage .notFound :=
  ⟨(c10_error_constructor_defaults .notFound none (some "Not found user with id = 999")
      none none none none none).1 (Or.inl rfl),
   (c10_error_constructor_defaults .notFound none (some "Not found user with id = 999")
      none none none none none).2.2.1 (Or.inl rfl),
   (c10_error_constructor_defaults .notFound none (some "Not found user with id = 999")
      none none none none none).2.2.2,
   (c10_error_constructor_defaults .notFound none (some "") none none none none
      none).2.1 (Or.inr rfl)⟩

end ByBlog
